import Mathlib

/-!
Formal model of the market-intelligence pipeline orchestrator and its
budget-aware cost ledger, embedded from the Python sources:

* `src/utils/cost_tracker.py` — `TokenUsage`, `CostTracker` (pricing table,
  `calculate_cost`, `track_usage`, `check_budget`, `get_summary`).
* `src/workflows/intelligence.py` — `MarketIntelligenceWorkflow` node
  functions and LangGraph routing (`_research_node`, `_analysis_node`,
  `_writing_node`, `_human_review_node`, `_should_continue_to_analysis`,
  `_check_approval`, `_build_graph`, `run`).
* `src/workflows/state.py` — `IntelligenceState`.
* `src/api/main.py` — the progress computation of `get_status` and the
  final-status computation of `run_analysis_task`.

Monetary amounts are modelled as exact rationals (Python uses binary
floats; all claims here are about comparisons and exact accumulation,
which the rational model captures).  Python dict payloads whose values
the orchestrator never inspects are modelled as association lists of
strings.  Stage executors call external collaborators (LLM, web search);
their outcomes are inputs to the model, exactly the way the repository's
own tests drive the workflow by substituting node behaviours.
-/

namespace MarketIntel

/-- One usage record, from `TokenUsage` in `cost_tracker.py`. -/
structure TokenUsage where
  input_tokens : Nat
  output_tokens : Nat
  model : String
  deriving DecidableEq, Repr

/-- `TokenUsage.total_tokens` property: input plus output tokens. -/
def TokenUsage.total_tokens (u : TokenUsage) : Nat :=
  u.input_tokens + u.output_tokens

/-- The `PRICING` class variable: USD per token, input and output priced
independently (the source stores e.g. `0.25 / 1_000_000`). -/
def PRICING : List (String × (ℚ × ℚ)) :=
  [ ("x-ai/grok-4.1-fast:free", (0, 0)),
    ("meta-llama/llama-3.3-70b-instruct:free", (0, 0)),
    ("ollama", (0, 0)),
    ("openai/gpt-5-nano", ((0.05 : ℚ) / 1000000, (0.40 : ℚ) / 1000000)),
    ("openai/gpt-5-mini", ((0.25 : ℚ) / 1000000, (2.00 : ℚ) / 1000000)),
    ("google/gemini-2.5-flash-lite", ((0.10 : ℚ) / 1000000, (0.40 : ℚ) / 1000000)),
    ("google/gemini-3-pro-preview", ((2.00 : ℚ) / 1000000, (12.00 : ℚ) / 1000000)),
    ("anthropic/claude-sonnet-4.5", ((3.00 : ℚ) / 1000000, (15.00 : ℚ) / 1000000)) ]

/-- Python `dict.get(key, default)` on the pricing table. -/
def dictGet (d : List (String × (ℚ × ℚ))) (k : String) (dflt : ℚ × ℚ) : ℚ × ℚ :=
  match d.find? (fun p => p.fst == k) with
  | some p => p.snd
  | none => dflt

/-- The `PRICING["openai/gpt-5-mini"]` entry, used as the fallback for an
unknown model in `calculate_cost`. -/
def gpt5miniPricing : ℚ × ℚ := ((0.25 : ℚ) / 1000000, (2.00 : ℚ) / 1000000)

/-- Price lookup of `calculate_cost`:
`self.PRICING.get(model, self.PRICING["openai/gpt-5-mini"])`. -/
def getPricing (model : String) : ℚ × ℚ :=
  dictGet PRICING model gpt5miniPricing

/-- The ledger state: `CostTracker` dataclass fields. -/
structure CostTracker where
  total_cost : ℚ
  usage_history : List TokenUsage
  deriving DecidableEq, Repr

/-- A fresh `CostTracker()` (dataclass defaults). -/
def CostTracker.init : CostTracker := ⟨0, []⟩

/-- `CostTracker.calculate_cost`: price the call from the table (the method
reads only the class-level table, no instance state). -/
def calculate_cost (model : String) (input_tokens output_tokens : Nat) : ℚ :=
  (input_tokens : ℚ) * (getPricing model).fst
    + (output_tokens : ℚ) * (getPricing model).snd

/-- `CostTracker.track_usage`: append a usage record, add the computed cost
to the running total, return the cost delta together with the post-state. -/
def track_usage (t : CostTracker) (model : String)
    (input_tokens output_tokens : Nat) : ℚ × CostTracker :=
  let cost := calculate_cost model input_tokens output_tokens
  (cost,
   { total_cost := t.total_cost + cost,
     usage_history := t.usage_history ++ [⟨input_tokens, output_tokens, model⟩] })

/-- `CostTracker.check_budget`: raise `BudgetExceededError` when the running
total strictly exceeds the budget, otherwise return normally.  The Python
message interpolates the amounts; the model keeps a fixed core message.
The method only reads `self`, so the post-state is the input state. -/
def check_budget (t : CostTracker) (max_budget : ℚ) :
    Except String Unit × CostTracker :=
  (if t.total_cost > max_budget then Except.error "Cost exceeds budget"
   else Except.ok (), t)

/-- Round half to even at integer precision, the semantics of Python's
builtin `round` (the binary-float representation is abstracted away). -/
def roundHalfEven (q : ℚ) : ℤ :=
  if Int.fract q < 1/2 then ⌊q⌋
  else if 1/2 < Int.fract q then ⌊q⌋ + 1
  else if ⌊q⌋ % 2 = 0 then ⌊q⌋ else ⌊q⌋ + 1

/-- Python `round(x, 4)` as used by `get_summary`. -/
def round4 (q : ℚ) : ℚ := (roundHalfEven (q * 10000) : ℚ) / 10000

/-- Per-model aggregate of `get_summary` (`model_costs[model]` entries). -/
structure ModelCosts where
  input_tokens : Nat
  output_tokens : Nat
  cost : ℚ
  deriving DecidableEq, Repr

/-- One iteration of the `for usage in self.usage_history` loop of
`get_summary`: create a zero entry when the model is absent, then add the
record's tokens and its recomputed `calculate_cost`. -/
def addUsage : List (String × ModelCosts) → TokenUsage → List (String × ModelCosts)
  | [], u =>
      [(u.model,
        ⟨u.input_tokens, u.output_tokens,
         calculate_cost u.model u.input_tokens u.output_tokens⟩)]
  | (m, c) :: rest, u =>
      if m = u.model then
        (m, ⟨c.input_tokens + u.input_tokens, c.output_tokens + u.output_tokens,
             c.cost + calculate_cost u.model u.input_tokens u.output_tokens⟩) :: rest
      else
        (m, c) :: addUsage rest u

/-- The dictionary returned by `get_summary`. -/
structure Summary where
  total_cost : ℚ
  total_input_tokens : Nat
  total_output_tokens : Nat
  total_tokens : Nat
  calls : Nat
  by_model : List (String × ModelCosts)
  deriving DecidableEq, Repr

/-- `CostTracker.get_summary`: aggregate the usage history; the reported
total cost is the running total rounded to four decimal places.  The method
only reads `self`, so the post-state is the input state. -/
def get_summary (t : CostTracker) : Summary × CostTracker :=
  ({ total_cost := round4 t.total_cost,
     total_input_tokens := (t.usage_history.map TokenUsage.input_tokens).sum,
     total_output_tokens := (t.usage_history.map TokenUsage.output_tokens).sum,
     total_tokens := (t.usage_history.map TokenUsage.input_tokens).sum
       + (t.usage_history.map TokenUsage.output_tokens).sum,
     calls := t.usage_history.length,
     by_model := t.usage_history.foldl addUsage [] }, t)

/-- The LangGraph run state, from `IntelligenceState` in
`src/workflows/state.py`.  Dict payloads whose values the orchestrator never
inspects are modelled as association lists of strings; `errors` carries the
`operator.add` accumulation annotation, applied in the node models. -/
structure IntelligenceState where
  company_name : String
  industry : Option String
  research_data : List (String × String)
  competitors : List String
  market_trends : List (String × String)
  raw_sources : List String
  swot : List (String × String)
  competitive_matrix : List (String × String)
  positioning : List (String × String)
  strategic_recommendations : List (String × String)
  executive_summary : String
  full_report : String
  report_metadata : List (String × String)
  current_agent : String
  iteration : Nat
  total_cost : ℚ
  total_tokens : Nat
  errors : List String
  human_feedback : Option String
  approved : Bool
  revision_count : Nat
  deriving DecidableEq, Repr

/-- One `track_usage` call issued by an agent on the shared cost tracker. -/
structure UsageCall where
  model : String
  input_tokens : Nat
  output_tokens : Nat
  deriving DecidableEq, Repr

/-- Result of one agent `run`: the usage it recorded on the shared tracker
before returning or raising, and either its result dict or the message of
the exception it raised. -/
structure AgentOutcome (α : Type) where
  usages : List UsageCall
  result : Except String α

/-- The dict returned by `ResearchAgent.run`: `data` is the dict itself
(`research_data` is set to the whole dict); the other fields model
`research_results.get("competitors", [])` and friends. -/
structure ResearchResults where
  data : List (String × String)
  competitors : List String
  market_trends : List (String × String)
  raw_sources : List String
  deriving DecidableEq, Repr

/-- The dict returned by `AnalysisAgent.run`, as read by `_analysis_node`
via `analysis_results.get(key, {})`. -/
structure AnalysisResults where
  swot : List (String × String)
  competitive_matrix : List (String × String)
  positioning : List (String × String)
  strategic_recommendations : List (String × String)
  deriving DecidableEq, Repr

/-- The dict returned by `WriterAgent.run`, as read by `_writing_node`. -/
structure WritingResults where
  executive_summary : String
  full_report : String
  metadata : List (String × String)
  deriving DecidableEq, Repr

/-- External collaborator behaviours driving the stage executors, the way
the repository's tests substitute node behaviours.  The review fields give
the values `_human_review_node` stores; the source's literal behaviour is
`code_review_approved` / `code_review_feedback`. -/
structure Behaviors where
  research : IntelligenceState → AgentOutcome ResearchResults
  analysis : IntelligenceState → AgentOutcome AnalysisResults
  writing : IntelligenceState → AgentOutcome WritingResults
  reviewApproved : IntelligenceState → Bool
  reviewFeedback : IntelligenceState → Option String

/-- `_human_review_node` returns `approved=True` (auto-approve). -/
def code_review_approved : Bool := true

/-- `_human_review_node` returns `human_feedback=None`. -/
def code_review_feedback : Option String := none

/-- Apply a sequence of `track_usage` calls to the shared tracker. -/
def applyUsages : CostTracker → List UsageCall → CostTracker
  | t, [] => t
  | t, u :: rest =>
      applyUsages (track_usage t u.model u.input_tokens u.output_tokens).snd rest

/-- `_research_node`: run the research agent; on success overwrite the
research-owned fields and bump `iteration`; on exception append a
`Research failed:` entry. -/
def research_node (beh : Behaviors) (s : IntelligenceState) (t : CostTracker) :
    IntelligenceState × CostTracker :=
  let out := beh.research s
  let t2 := applyUsages t out.usages
  match out.result with
  | Except.ok r =>
      ({ s with current_agent := "research",
                research_data := r.data,
                competitors := r.competitors,
                market_trends := r.market_trends,
                raw_sources := r.raw_sources,
                iteration := s.iteration + 1 }, t2)
  | Except.error e =>
      ({ s with errors := s.errors ++ ["Research failed: " ++ e],
                current_agent := "research" }, t2)

/-- `_analysis_node`: check the budget first; a `BudgetExceededError` is
caught and recorded without running the agent; otherwise run the agent and
either overwrite the analysis-owned fields or record the failure. -/
def analysis_node (beh : Behaviors) (max_budget : ℚ)
    (s : IntelligenceState) (t : CostTracker) : IntelligenceState × CostTracker :=
  match (check_budget t max_budget).fst with
  | Except.error e =>
      ({ s with errors := s.errors ++ ["Budget exceeded: " ++ e],
                current_agent := "analysis" }, t)
  | Except.ok _ =>
      let out := beh.analysis s
      let t2 := applyUsages t out.usages
      match out.result with
      | Except.ok r =>
          ({ s with current_agent := "analysis",
                    swot := r.swot,
                    competitive_matrix := r.competitive_matrix,
                    positioning := r.positioning,
                    strategic_recommendations := r.strategic_recommendations }, t2)
      | Except.error e =>
          ({ s with errors := s.errors ++ ["Analysis failed: " ++ e],
                    current_agent := "analysis" }, t2)

/-- `_writing_node`: run the writer agent; on success take a cost summary
from the shared tracker and snapshot `total_cost` / `total_tokens` into the
state; on exception record the failure (no snapshot). -/
def writing_node (beh : Behaviors) (s : IntelligenceState) (t : CostTracker) :
    IntelligenceState × CostTracker :=
  let out := beh.writing s
  let t2 := applyUsages t out.usages
  match out.result with
  | Except.ok r =>
      let summ := (get_summary t2).fst
      ({ s with current_agent := "writing",
                executive_summary := r.executive_summary,
                full_report := r.full_report,
                report_metadata := r.metadata,
                total_cost := summ.total_cost,
                total_tokens := summ.total_tokens }, t2)
  | Except.error e =>
      ({ s with errors := s.errors ++ ["Writing failed: " ++ e],
                current_agent := "writing" }, t2)

/-- `_human_review_node`: store the review outcome (the source always
stores `approved=True`, `human_feedback=None`). -/
def human_review_node (beh : Behaviors) (s : IntelligenceState)
    (t : CostTracker) : IntelligenceState × CostTracker :=
  ({ s with current_agent := "human_review",
            approved := beh.reviewApproved s,
            human_feedback := beh.reviewFeedback s }, t)

/-- `_should_continue_to_analysis`: end on a recorded error or on empty
research output, otherwise continue to analysis. -/
def should_continue_to_analysis (s : IntelligenceState) : String :=
  if s.errors ≠ [] then "end"
  else if s.research_data = [] then "end"
  else "analysis"

/-- Python truthiness of the `human_feedback` field. -/
def truthyFeedback : Option String → Bool
  | none => false
  | some f => f != ""

/-- `_check_approval`: max-revisions gate (hard-coded cap 2), then approval,
then feedback, defaulting to approved. -/
def check_approval (s : IntelligenceState) : String :=
  if s.revision_count ≥ 2 then "max_revisions"
  else if s.approved then "approved"
  else if truthyFeedback s.human_feedback then "revise"
  else "approved"

/-- The graph position: the node the orchestrator will dispatch next, or
`done` once an `END` edge has been taken. -/
inductive Node where
  | research
  | analysis
  | writing
  | human_review
  | done
  deriving DecidableEq, Repr

/-- A configuration of the compiled LangGraph: the run state, the shared
cost tracker, and the next node to dispatch. -/
structure MachineState where
  state : IntelligenceState
  tracker : CostTracker
  node : Node
  deriving DecidableEq, Repr

/-- One orchestrator step of the compiled graph from `_build_graph`:
dispatch the node, merge its delta, follow the (conditional) edge.
`research` routes via `_should_continue_to_analysis`; `analysis → writing`
and `writing → human_review` are unconditional edges; `human_review`
routes via `_check_approval` (`approved` and `max_revisions` go to `END`,
`revise` goes back to `research`).  `done` is absorbing. -/
def step (beh : Behaviors) (max_budget : ℚ) (ms : MachineState) : MachineState :=
  match ms.node with
  | Node.research =>
      let r := research_node beh ms.state ms.tracker
      { state := r.fst, tracker := r.snd,
        node := if should_continue_to_analysis r.fst = "analysis"
                then Node.analysis else Node.done }
  | Node.analysis =>
      let r := analysis_node beh max_budget ms.state ms.tracker
      { state := r.fst, tracker := r.snd, node := Node.writing }
  | Node.writing =>
      let r := writing_node beh ms.state ms.tracker
      { state := r.fst, tracker := r.snd, node := Node.human_review }
  | Node.human_review =>
      let r := human_review_node beh ms.state ms.tracker
      { state := r.fst, tracker := r.snd,
        node := if check_approval r.fst = "revise"
                then Node.research else Node.done }
  | Node.done => ms

/-- Iterated orchestrator steps. -/
def runSteps (beh : Behaviors) (max_budget : ℚ) :
    Nat → MachineState → MachineState
  | 0, ms => ms
  | n + 1, ms => runSteps beh max_budget n (step beh max_budget ms)

/-- The `initial_state` dict built by `MarketIntelligenceWorkflow.run`. -/
def initialState (company_name : String) (industry : Option String) :
    IntelligenceState :=
  { company_name := company_name
    industry := industry
    research_data := []
    competitors := []
    market_trends := []
    raw_sources := []
    swot := []
    competitive_matrix := []
    positioning := []
    strategic_recommendations := []
    executive_summary := ""
    full_report := ""
    report_metadata := []
    current_agent := "research"
    iteration := 0
    total_cost := 0
    total_tokens := 0
    errors := []
    human_feedback := none
    approved := false
    revision_count := 0 }

/-- A fresh run: initial state, the workflow's fresh shared `CostTracker`,
entry point `research`. -/
def initialMachine (company_name : String) (industry : Option String) :
    MachineState :=
  { state := initialState company_name industry,
    tracker := CostTracker.init,
    node := Node.research }

/-- A successful research result with non-empty output, as in the
repository's integration test (`research_data = {"some": "data"}`). -/
def okResearch : ResearchResults := ⟨[("some", "data")], [], [], []⟩

/-- A successful analysis result with empty artifacts. -/
def okAnalysis : AnalysisResults := ⟨[], [], [], []⟩

/-- A successful writing result. -/
def okWriting : WritingResults := ⟨"Test summary", "# Test Report", []⟩

/-- The budget scenario of the spec: research succeeds and records usage
costing $0.05 (`openai/gpt-5-mini`, 40000 input and 20000 output tokens);
later agents record nothing; review behaves as in the source
(auto-approve). -/
def budgetScenarioBeh : Behaviors :=
  { research := fun _ =>
      ⟨[⟨"openai/gpt-5-mini", 40000, 20000⟩], Except.ok okResearch⟩,
    analysis := fun _ => ⟨[], Except.ok okAnalysis⟩,
    writing := fun _ => ⟨[], Except.ok okWriting⟩,
    reviewApproved := fun _ => code_review_approved,
    reviewFeedback := fun _ => code_review_feedback }

/-- All stages succeed, nothing is recorded, review as in the source. -/
def successBeh : Behaviors :=
  { research := fun _ => ⟨[], Except.ok okResearch⟩,
    analysis := fun _ => ⟨[], Except.ok okAnalysis⟩,
    writing := fun _ => ⟨[], Except.ok okWriting⟩,
    reviewApproved := fun _ => code_review_approved,
    reviewFeedback := fun _ => code_review_feedback }

/-- All stages succeed, but the review outcome requests a revision
(feedback present, not approved) — the case `_check_approval` encodes for
an interactive reviewer and the repository's unit test
`test_check_approval_revision_requested` exercises. -/
def revisingReviewBeh : Behaviors :=
  { research := fun _ => ⟨[], Except.ok okResearch⟩,
    analysis := fun _ => ⟨[], Except.ok okAnalysis⟩,
    writing := fun _ => ⟨[], Except.ok okWriting⟩,
    reviewApproved := fun _ => false,
    reviewFeedback := fun _ => some "Please add more details" }

/-- Research records usage costing $0.05 and then raises. -/
def researchFailBeh : Behaviors :=
  { research := fun _ =>
      ⟨[⟨"openai/gpt-5-mini", 40000, 20000⟩], Except.error "API timeout"⟩,
    analysis := fun _ => ⟨[], Except.ok okAnalysis⟩,
    writing := fun _ => ⟨[], Except.ok okWriting⟩,
    reviewApproved := fun _ => code_review_approved,
    reviewFeedback := fun _ => code_review_feedback }

/-- The `progress_map` dict of `get_status` in `src/api/main.py`. -/
def progress_map : List (String × ℚ) :=
  [ ("research", (0.2 : ℚ)),
    ("analysis", (0.5 : ℚ)),
    ("writing", (0.8 : ℚ)),
    ("human_review", (0.9 : ℚ)),
    ("completed", (1.0 : ℚ)) ]

/-- `progress_map.get(current_agent, 0.0)`. -/
def lookupProgress (agent : String) : ℚ :=
  match progress_map.find? (fun p => p.fst == agent) with
  | some p => p.snd
  | none => 0

/-- The progress computation of `get_status`: map the stored
`current_agent` through `progress_map` (0.0 when absent or `None`), then
force 1.0 when the stored status is `"completed"`. -/
def get_status_progress (status : String) (current_agent : Option String) : ℚ :=
  let p := match current_agent with
           | some a => lookupProgress a
           | none => 0
  if status = "completed" then 1 else p

/-- The final status stored by `run_analysis_task`:
`"completed" if not result.get("errors") else "failed"`. -/
def run_final_status (errors : List String) : String :=
  if errors = [] then "completed" else "failed"

/-- Python dict lookup `model_costs[model]` on the insertion-ordered
per-model dictionary. -/
def lookupModel : List (String × ModelCosts) → String → Option ModelCosts
  | [], _ => none
  | (m, c) :: rest, model => if m = model then some c else lookupModel rest model

/-- The usage records of one model, in history order. -/
def modelRecords (model : String) (h : List TokenUsage) : List TokenUsage :=
  h.filter (fun u => u.model == model)

/-- The per-model breakdown as the spec words it: the sums of input
tokens, output tokens and per-call cost over the recorded usage history of
that model (absent when the model never appears).  Stated from the spec to
compare against the fold `get_summary` computes. -/
def spec_model_breakdown (model : String) (h : List TokenUsage) :
    Option ModelCosts :=
  if modelRecords model h = [] then none
  else
    some ⟨((modelRecords model h).map TokenUsage.input_tokens).sum,
          ((modelRecords model h).map TokenUsage.output_tokens).sum,
          ((modelRecords model h).map
            (fun u => calculate_cost u.model u.input_tokens u.output_tokens)).sum⟩

/-- The run state after a successful research step on `"Test Co"` with
result `okResearch`. -/
def stateAfterResearch : IntelligenceState :=
  { initialState "Test Co" none with
      research_data := [("some", "data")],
      current_agent := "research",
      iteration := 1 }

/-- The tracker after research records 40000 input and 20000 output tokens
of `openai/gpt-5-mini` (cost $0.05). -/
def budgetTracker1 : CostTracker :=
  { total_cost := 1/20,
    usage_history := [⟨40000, 20000, "openai/gpt-5-mini"⟩] }

/-- Budget scenario, after the analysis node catches the budget error. -/
def stateAfterBudgetError : IntelligenceState :=
  { stateAfterResearch with
      errors := ["Budget exceeded: Cost exceeds budget"],
      current_agent := "analysis" }

/-- Budget scenario, after the writing node runs and snapshots the cost. -/
def stateAfterWritingBudget : IntelligenceState :=
  { stateAfterBudgetError with
      current_agent := "writing",
      executive_summary := "Test summary",
      full_report := "# Test Report",
      total_cost := 1/20,
      total_tokens := 60000 }

/-- Budget scenario, after the auto-approving review node. -/
def stateAfterBudgetReview : IntelligenceState :=
  { stateAfterWritingBudget with
      current_agent := "human_review",
      approved := true,
      human_feedback := none }

/-- The run state after a research step that records usage and raises. -/
def stateAfterResearchFail : IntelligenceState :=
  { initialState "Test Co" none with
      errors := ["Research failed: API timeout"],
      current_agent := "research" }

/-- Revision scenario, after the (cost-free) successful analysis step. -/
def stateAfterAnalysis : IntelligenceState :=
  { stateAfterResearch with current_agent := "analysis" }

/-- Revision scenario, after the successful writing step. -/
def stateAfterWriting : IntelligenceState :=
  { stateAfterAnalysis with
      current_agent := "writing",
      executive_summary := "Test summary",
      full_report := "# Test Report" }

/-- Revision scenario, after the review step that requests a revision. -/
def stateAfterReview : IntelligenceState :=
  { stateAfterWriting with
      current_agent := "human_review",
      approved := false,
      human_feedback := some "Please add more details" }

/-! ### Helper lemmas -/

lemma pricing_entries_nonneg :
    ∀ q ∈ PRICING, 0 ≤ q.snd.fst ∧ 0 ≤ q.snd.snd := by
  intro q hq
  fin_cases hq <;> constructor <;> norm_num

lemma getPricing_nonneg (model : String) :
    0 ≤ (getPricing model).fst ∧ 0 ≤ (getPricing model).snd := by
  unfold getPricing dictGet
  cases h : PRICING.find? (fun p => p.fst == model) with
  | none =>
      constructor <;> norm_num [gpt5miniPricing]
  | some p =>
      exact pricing_entries_nonneg p (List.mem_of_find?_eq_some h)

lemma calculate_cost_nonneg (model : String) (i o : Nat) :
    0 ≤ calculate_cost model i o := by
  unfold calculate_cost
  have h := getPricing_nonneg model
  have hi : (0 : ℚ) ≤ (i : ℚ) := by positivity
  have ho : (0 : ℚ) ≤ (o : ℚ) := by positivity
  nlinarith [h.1, h.2]

lemma floor_le_roundHalfEven (q : ℚ) : ⌊q⌋ ≤ roundHalfEven q := by
  unfold roundHalfEven
  split_ifs <;> omega

lemma roundHalfEven_le_floor_add_one (q : ℚ) : roundHalfEven q ≤ ⌊q⌋ + 1 := by
  unfold roundHalfEven
  split_ifs <;> omega

lemma roundHalfEven_mono {x y : ℚ} (h : x ≤ y) :
    roundHalfEven x ≤ roundHalfEven y := by
  have hfl : ⌊x⌋ ≤ ⌊y⌋ := Int.floor_le_floor h
  rcases eq_or_lt_of_le hfl with hfe | hflt
  · have hfr : Int.fract x ≤ Int.fract y := by
      unfold Int.fract
      rw [hfe]
      exact sub_le_sub_right h _
    unfold roundHalfEven
    rw [hfe]
    split_ifs <;> first | omega | linarith
  · calc roundHalfEven x ≤ ⌊x⌋ + 1 := roundHalfEven_le_floor_add_one x
      _ ≤ ⌊y⌋ := by omega
      _ ≤ roundHalfEven y := floor_le_roundHalfEven y

lemma round4_mono {x y : ℚ} (h : x ≤ y) : round4 x ≤ round4 y := by
  unfold round4
  have h1 : roundHalfEven (x * 10000) ≤ roundHalfEven (y * 10000) :=
    roundHalfEven_mono (by linarith)
  have h2 : ((roundHalfEven (x * 10000) : ℤ) : ℚ)
      ≤ ((roundHalfEven (y * 10000) : ℤ) : ℚ) := by exact_mod_cast h1
  linarith

lemma round4_zero : round4 0 = 0 := by
  unfold round4 roundHalfEven
  rw [zero_mul]
  simp [Int.fract_zero]

lemma track_usage_total_le (t : CostTracker) (model : String) (i o : Nat) :
    t.total_cost ≤ (track_usage t model i o).snd.total_cost := by
  unfold track_usage
  exact le_add_of_nonneg_right (calculate_cost_nonneg model i o)

lemma applyUsages_total_le (us : List UsageCall) :
    ∀ t : CostTracker, t.total_cost ≤ (applyUsages t us).total_cost := by
  induction us with
  | nil => intro t; exact le_refl _
  | cons u rest ih =>
      intro t
      exact le_trans
        (track_usage_total_le t u.model u.input_tokens u.output_tokens)
        (ih (track_usage t u.model u.input_tokens u.output_tokens).snd)

lemma research_node_tracker (beh : Behaviors) (s : IntelligenceState)
    (t : CostTracker) :
    (research_node beh s t).snd = applyUsages t (beh.research s).usages := by
  unfold research_node
  cases hr : (beh.research s).result <;> simp [hr]

lemma research_node_cost (beh : Behaviors) (s : IntelligenceState)
    (t : CostTracker) :
    (research_node beh s t).fst.total_cost = s.total_cost := by
  unfold research_node
  cases hr : (beh.research s).result <;> simp [hr]

lemma analysis_node_tracker_le (beh : Behaviors) (mb : ℚ)
    (s : IntelligenceState) (t : CostTracker) :
    t.total_cost ≤ (analysis_node beh mb s t).snd.total_cost := by
  unfold analysis_node
  cases hcb : (check_budget t mb).fst with
  | error e => simp [hcb]
  | ok u =>
      cases hr : (beh.analysis s).result <;>
        simp [hcb, hr, applyUsages_total_le]

lemma analysis_node_cost (beh : Behaviors) (mb : ℚ)
    (s : IntelligenceState) (t : CostTracker) :
    (analysis_node beh mb s t).fst.total_cost = s.total_cost := by
  unfold analysis_node
  cases hcb : (check_budget t mb).fst with
  | error e => simp [hcb]
  | ok u => cases hr : (beh.analysis s).result <;> simp [hcb, hr]

lemma writing_node_tracker (beh : Behaviors) (s : IntelligenceState)
    (t : CostTracker) :
    (writing_node beh s t).snd = applyUsages t (beh.writing s).usages := by
  unfold writing_node
  cases hr : (beh.writing s).result <;> simp [hr]

lemma writing_node_cost (beh : Behaviors) (s : IntelligenceState)
    (t : CostTracker) :
    (writing_node beh s t).fst.total_cost = s.total_cost ∨
    (writing_node beh s t).fst.total_cost
      = round4 ((writing_node beh s t).snd.total_cost) := by
  unfold writing_node
  cases hr : (beh.writing s).result with
  | error e => left; simp [hr]
  | ok r => right; simp [hr, get_summary]

lemma step_tracker_le (beh : Behaviors) (mb : ℚ) (ms : MachineState) :
    ms.tracker.total_cost ≤ (step beh mb ms).tracker.total_cost := by
  obtain ⟨s, t, nd⟩ := ms
  cases nd <;> simp only [step]
  · rw [research_node_tracker]; exact applyUsages_total_le _ _
  · exact analysis_node_tracker_le beh mb s t
  · rw [writing_node_tracker]; exact applyUsages_total_le _ _
  · exact le_refl _
  · exact le_refl _

lemma step_total_cost_cases (beh : Behaviors) (mb : ℚ) (ms : MachineState) :
    (step beh mb ms).state.total_cost = ms.state.total_cost ∨
    (ms.node = Node.writing ∧
     (step beh mb ms).state.total_cost
       = round4 ((step beh mb ms).tracker.total_cost)) := by
  obtain ⟨s, t, nd⟩ := ms
  cases nd <;> simp only [step]
  · left; exact research_node_cost beh s t
  · left; exact analysis_node_cost beh mb s t
  · rcases writing_node_cost beh s t with hc | hc
    · left; exact hc
    · right; exact ⟨trivial, hc⟩
  · left; trivial
  · left; trivial

lemma runSteps_succ_last (beh : Behaviors) (mb : ℚ) (n : Nat) :
    ∀ ms : MachineState,
      runSteps beh mb (n + 1) ms = step beh mb (runSteps beh mb n ms) := by
  induction n with
  | zero => intro ms; rfl
  | succ k ih =>
      intro ms
      calc runSteps beh mb (k + 2) ms
          = runSteps beh mb (k + 1) (step beh mb ms) := rfl
        _ = step beh mb (runSteps beh mb k (step beh mb ms)) := ih _
        _ = step beh mb (runSteps beh mb (k + 1) ms) := rfl

lemma step_snapshot_le_round4 (beh : Behaviors) (mb : ℚ) (ms : MachineState)
    (h : ms.state.total_cost ≤ round4 ms.tracker.total_cost) :
    (step beh mb ms).state.total_cost
      ≤ round4 ((step beh mb ms).tracker.total_cost) := by
  rcases step_total_cost_cases beh mb ms with hc | ⟨_, hc⟩
  · rw [hc]
    exact le_trans h (round4_mono (step_tracker_le beh mb ms))
  · rw [hc]

lemma step_snapshot_mono (beh : Behaviors) (mb : ℚ) (ms : MachineState)
    (h : ms.state.total_cost ≤ round4 ms.tracker.total_cost) :
    ms.state.total_cost ≤ (step beh mb ms).state.total_cost := by
  rcases step_total_cost_cases beh mb ms with hc | ⟨_, hc⟩
  · rw [hc]
  · rw [hc]
    exact le_trans h (round4_mono (step_tracker_le beh mb ms))

lemma runSteps_snapshot_le_round4 (beh : Behaviors) (mb : ℚ)
    (c : String) (ind : Option String) (n : Nat) :
    (runSteps beh mb n (initialMachine c ind)).state.total_cost
      ≤ round4 ((runSteps beh mb n (initialMachine c ind)).tracker.total_cost) := by
  induction n with
  | zero =>
      show (initialState c ind).total_cost ≤ round4 CostTracker.init.total_cost
      rw [show CostTracker.init.total_cost = 0 from rfl, round4_zero]
      exact le_of_eq rfl
  | succ k ih =>
      rw [runSteps_succ_last]
      exact step_snapshot_le_round4 beh mb _ ih

lemma getPricing_gpt5mini : getPricing "openai/gpt-5-mini" = gpt5miniPricing := rfl

lemma lookupProgress_research : lookupProgress "research" = (0.2 : ℚ) := rfl

lemma lookupProgress_analysis : lookupProgress "analysis" = (0.5 : ℚ) := rfl

lemma lookupProgress_writing : lookupProgress "writing" = (0.8 : ℚ) := rfl

lemma lookupProgress_review : lookupProgress "human_review" = (0.9 : ℚ) := rfl

lemma roundHalfEven_intCast (n : ℤ) : roundHalfEven (n : ℚ) = n := by
  unfold roundHalfEven
  norm_num [Int.fract_intCast, Int.floor_intCast]

lemma round4_one_twentieth : round4 (1/20 : ℚ) = 1/20 := by
  unfold round4
  rw [show (1/20 : ℚ) * 10000 = ((500 : ℤ) : ℚ) by norm_num, roundHalfEven_intCast]
  norm_num

lemma budget_step1 :
    step budgetScenarioBeh (0.001 : ℚ) (initialMachine "Test Co" none)
      = ⟨stateAfterResearch, budgetTracker1, Node.analysis⟩ := by
  norm_num [step, initialMachine, research_node, budgetScenarioBeh, okResearch,
    applyUsages, track_usage, calculate_cost, getPricing_gpt5mini, gpt5miniPricing,
    should_continue_to_analysis, initialState, CostTracker.init,
    stateAfterResearch, budgetTracker1]

lemma budget_step2 :
    step budgetScenarioBeh (0.001 : ℚ)
        ⟨stateAfterResearch, budgetTracker1, Node.analysis⟩
      = ⟨stateAfterBudgetError, budgetTracker1, Node.writing⟩ := by
  norm_num [step, analysis_node, check_budget, budgetTracker1,
    stateAfterResearch, stateAfterBudgetError, initialState]
  decide

lemma budget_step3 :
    step budgetScenarioBeh (0.001 : ℚ)
        ⟨stateAfterBudgetError, budgetTracker1, Node.writing⟩
      = ⟨stateAfterWritingBudget, budgetTracker1, Node.human_review⟩ := by
  norm_num [step, writing_node, budgetScenarioBeh, okWriting, applyUsages,
    get_summary, round4_one_twentieth, budgetTracker1, TokenUsage.total_tokens,
    stateAfterBudgetError, stateAfterWritingBudget, stateAfterResearch,
    initialState]

lemma budget_step4 :
    step budgetScenarioBeh (0.001 : ℚ)
        ⟨stateAfterWritingBudget, budgetTracker1, Node.human_review⟩
      = ⟨stateAfterBudgetReview, budgetTracker1, Node.done⟩ := by
  norm_num [step, human_review_node, budgetScenarioBeh, code_review_approved,
    code_review_feedback, check_approval, truthyFeedback,
    stateAfterWritingBudget, stateAfterBudgetReview, stateAfterBudgetError,
    stateAfterResearch, initialState]
  decide

lemma budget_run4 :
    runSteps budgetScenarioBeh (0.001 : ℚ) 4 (initialMachine "Test Co" none)
      = ⟨stateAfterBudgetReview, budgetTracker1, Node.done⟩ := by
  simp only [runSteps]
  rw [budget_step1, budget_step2, budget_step3, budget_step4]

lemma fail_step1 :
    step researchFailBeh (2 : ℚ) (initialMachine "Test Co" none)
      = ⟨stateAfterResearchFail, budgetTracker1, Node.done⟩ := by
  norm_num [step, initialMachine, research_node, researchFailBeh, applyUsages,
    track_usage, calculate_cost, getPricing_gpt5mini, gpt5miniPricing,
    should_continue_to_analysis, initialState, CostTracker.init,
    stateAfterResearchFail, budgetTracker1]
  decide

lemma revise_step1 :
    step revisingReviewBeh (2 : ℚ) (initialMachine "Test Co" none)
      = ⟨stateAfterResearch, CostTracker.init, Node.analysis⟩ := by
  norm_num [step, initialMachine, research_node, revisingReviewBeh, okResearch,
    applyUsages, should_continue_to_analysis, initialState, CostTracker.init,
    stateAfterResearch]

lemma revise_step2 :
    step revisingReviewBeh (2 : ℚ)
        ⟨stateAfterResearch, CostTracker.init, Node.analysis⟩
      = ⟨stateAfterAnalysis, CostTracker.init, Node.writing⟩ := by
  norm_num [step, analysis_node, check_budget, CostTracker.init,
    revisingReviewBeh, okAnalysis, applyUsages,
    stateAfterResearch, stateAfterAnalysis, initialState]

lemma revise_step3 :
    step revisingReviewBeh (2 : ℚ)
        ⟨stateAfterAnalysis, CostTracker.init, Node.writing⟩
      = ⟨stateAfterWriting, CostTracker.init, Node.human_review⟩ := by
  norm_num [step, writing_node, revisingReviewBeh, okWriting, applyUsages,
    get_summary, round4_zero, CostTracker.init,
    stateAfterAnalysis, stateAfterWriting, stateAfterResearch, initialState]

lemma revise_step4 :
    step revisingReviewBeh (2 : ℚ)
        ⟨stateAfterWriting, CostTracker.init, Node.human_review⟩
      = ⟨stateAfterReview, CostTracker.init, Node.research⟩ := by
  norm_num [step, human_review_node, revisingReviewBeh, check_approval,
    truthyFeedback, stateAfterWriting, stateAfterReview, stateAfterAnalysis,
    stateAfterResearch, initialState]
  decide

lemma revise_run4 :
    runSteps revisingReviewBeh (2 : ℚ) 4 (initialMachine "Test Co" none)
      = ⟨stateAfterReview, CostTracker.init, Node.research⟩ := by
  simp only [runSteps]
  rw [revise_step1, revise_step2, revise_step3, revise_step4]

lemma research_node_revision (beh : Behaviors) (s : IntelligenceState)
    (t : CostTracker) :
    (research_node beh s t).fst.revision_count = s.revision_count := by
  unfold research_node
  cases hr : (beh.research s).result <;> simp [hr]

lemma analysis_node_revision (beh : Behaviors) (mb : ℚ)
    (s : IntelligenceState) (t : CostTracker) :
    (analysis_node beh mb s t).fst.revision_count = s.revision_count := by
  unfold analysis_node
  cases hcb : (check_budget t mb).fst with
  | error e => simp [hcb]
  | ok u => cases hr : (beh.analysis s).result <;> simp [hcb, hr]

lemma writing_node_revision (beh : Behaviors) (s : IntelligenceState)
    (t : CostTracker) :
    (writing_node beh s t).fst.revision_count = s.revision_count := by
  unfold writing_node
  cases hr : (beh.writing s).result <;> simp [hr]

lemma step_revision_count (beh : Behaviors) (mb : ℚ) (ms : MachineState) :
    (step beh mb ms).state.revision_count = ms.state.revision_count := by
  obtain ⟨s, t, nd⟩ := ms
  cases nd <;> simp only [step]
  · exact research_node_revision beh s t
  · exact analysis_node_revision beh mb s t
  · exact writing_node_revision beh s t
  · rfl

lemma step_node_analysis_guard (beh : Behaviors) (mb : ℚ) (ms : MachineState)
    (h : (step beh mb ms).node = Node.analysis) :
    (step beh mb ms).state.research_data ≠ [] ∧
    (step beh mb ms).state.errors = [] := by
  obtain ⟨s, t, nd⟩ := ms
  cases nd <;> simp only [step] at h ⊢
  case research =>
    by_cases hg : should_continue_to_analysis (research_node beh s t).fst = "analysis"
    · unfold should_continue_to_analysis at hg
      by_cases he : (research_node beh s t).fst.errors ≠ []
      · rw [if_pos he] at hg
        exact absurd hg (by decide)
      · rw [if_neg he] at hg
        by_cases hd : (research_node beh s t).fst.research_data = []
        · rw [if_pos hd] at hg
          exact absurd hg (by decide)
        · exact ⟨hd, not_not.mp he⟩
    · rw [if_neg hg] at h
      exact Node.noConfusion h
  case analysis => exact Node.noConfusion h
  case writing => exact Node.noConfusion h
  case human_review =>
    split_ifs at h
  case done => exact Node.noConfusion h

lemma step_research_error_done (beh : Behaviors) (mb : ℚ)
    (s : IntelligenceState) (t : CostTracker)
    (h : (step beh mb ⟨s, t, Node.research⟩).state.errors ≠ [] ∨
         (step beh mb ⟨s, t, Node.research⟩).state.research_data = []) :
    (step beh mb ⟨s, t, Node.research⟩).node = Node.done := by
  simp only [step] at h ⊢
  unfold should_continue_to_analysis
  rcases h with he | hd
  · rw [if_pos he]
    decide
  · by_cases he : (research_node beh s t).fst.errors ≠ []
    · rw [if_pos he]
      decide
    · rw [if_neg he, if_pos hd]
      decide

lemma sum_total_tokens (h : List TokenUsage) :
    (h.map TokenUsage.total_tokens).sum
      = (h.map TokenUsage.input_tokens).sum
        + (h.map TokenUsage.output_tokens).sum := by
  induction h with
  | nil => rfl
  | cons u rest ih =>
      simp only [List.map_cons, List.sum_cons, TokenUsage.total_tokens, ih]
      omega

lemma lookupModel_addUsage (d : List (String × ModelCosts)) (u : TokenUsage)
    (model : String) :
    lookupModel (addUsage d u) model =
      if u.model = model then
        some (match lookupModel d model with
              | none =>
                  ⟨u.input_tokens, u.output_tokens,
                   calculate_cost u.model u.input_tokens u.output_tokens⟩
              | some c =>
                  ⟨c.input_tokens + u.input_tokens,
                   c.output_tokens + u.output_tokens,
                   c.cost + calculate_cost u.model u.input_tokens u.output_tokens⟩)
      else lookupModel d model := by
  induction d with
  | nil =>
      by_cases hm : u.model = model <;> simp [addUsage, lookupModel, hm]
  | cons p rest ih =>
      obtain ⟨m, c⟩ := p
      by_cases hmu : m = u.model
      · subst hmu
        by_cases hm : u.model = model <;> simp [addUsage, lookupModel, hm]
      · by_cases hm2 : m = model
        · have hmu2 : ¬(model = u.model) := fun hh => hmu (hm2.trans hh)
          have hum2 : ¬(u.model = model) := fun hh => hmu2 hh.symm
          simp [addUsage, lookupModel, hm2, hmu, hmu2, hum2]
        · simp [addUsage, lookupModel, hmu, hm2, ih]

lemma lookupModel_foldl (h : List TokenUsage) :
    ∀ (d : List (String × ModelCosts)) (model : String),
    lookupModel (List.foldl addUsage d h) model =
      if modelRecords model h = [] then lookupModel d model
      else
        some ⟨((lookupModel d model).getD ⟨0, 0, 0⟩).input_tokens
                + ((modelRecords model h).map TokenUsage.input_tokens).sum,
              ((lookupModel d model).getD ⟨0, 0, 0⟩).output_tokens
                + ((modelRecords model h).map TokenUsage.output_tokens).sum,
              ((lookupModel d model).getD ⟨0, 0, 0⟩).cost
                + ((modelRecords model h).map
                    (fun u => calculate_cost u.model u.input_tokens
                       u.output_tokens)).sum⟩ := by
  induction h with
  | nil => intro d model; simp [modelRecords]
  | cons u rest ih =>
      intro d model
      rw [List.foldl_cons, ih (addUsage d u) model, lookupModel_addUsage]
      by_cases um : u.model = model
      · have hrec : modelRecords model (u :: rest) = u :: modelRecords model rest := by
          simp [modelRecords, List.filter_cons, um]
        rw [if_pos um, hrec]
        cases hd : lookupModel d model with
        | none =>
            by_cases hre : modelRecords model rest = []
            · rw [if_pos hre]
              simp [hre, ModelCosts.mk.injEq]
            · rw [if_neg hre]
              simp only [Option.getD_some, Option.getD_none, hre,
                if_neg (List.cons_ne_nil u (modelRecords model rest)),
                List.map_cons, List.sum_cons, Option.some.injEq,
                ModelCosts.mk.injEq]
              refine ⟨by omega, by omega, by ring⟩
        | some c =>
            by_cases hre : modelRecords model rest = []
            · rw [if_pos hre]
              simp [hre, ModelCosts.mk.injEq]
            · rw [if_neg hre]
              simp only [Option.getD_some, hre,
                if_neg (List.cons_ne_nil u (modelRecords model rest)),
                List.map_cons, List.sum_cons, Option.some.injEq,
                ModelCosts.mk.injEq]
              refine ⟨by omega, by omega, by ring⟩
      · have hrec : modelRecords model (u :: rest) = modelRecords model rest := by
          simp [modelRecords, List.filter_cons, um]
        rw [if_neg um, hrec]

/-! ### Theorems for the claims -/

/-- C9: the ledger total is non-decreasing: `track_usage` (with natural
token counts) only adds a non-negative delta, `check_budget` and
`get_summary` do not change it, and along any run both the shared tracker
total and the `total_cost` snapshot in the run state never decrease. -/
theorem ledger_cost_nondecreasing (t : CostTracker) (model : String)
    (i o : Nat) (lim : ℚ) (beh : Behaviors) (mb : ℚ) (c : String)
    (ind : Option String) (n : Nat) :
    t.total_cost ≤ (track_usage t model i o).snd.total_cost ∧
    (check_budget t lim).snd.total_cost = t.total_cost ∧
    (get_summary t).snd.total_cost = t.total_cost ∧
    (runSteps beh mb n (initialMachine c ind)).tracker.total_cost
      ≤ (runSteps beh mb (n + 1) (initialMachine c ind)).tracker.total_cost ∧
    (runSteps beh mb n (initialMachine c ind)).state.total_cost
      ≤ (runSteps beh mb (n + 1) (initialMachine c ind)).state.total_cost := by
  refine ⟨track_usage_total_le t model i o, rfl, rfl, ?_, ?_⟩
  · rw [runSteps_succ_last]
    exact step_tracker_le beh mb _
  · rw [runSteps_succ_last]
    exact step_snapshot_mono beh mb _ (runSteps_snapshot_le_round4 beh mb c ind n)

/-- C5 (amended): the `total_cost` field of the run state starts at 0 and
is changed only by a successful WRITING step, which sets it to the shared
ledger total at that moment rounded to four decimal places; no other
transition touches it. -/
theorem total_cost_snapshot_semantics (beh : Behaviors) (mb : ℚ)
    (ms : MachineState) (c : String) (ind : Option String) :
    ((step beh mb ms).state.total_cost = ms.state.total_cost ∨
      (ms.node = Node.writing ∧
       (step beh mb ms).state.total_cost
         = round4 ((step beh mb ms).tracker.total_cost))) ∧
    (initialState c ind).total_cost = 0 :=
  ⟨step_total_cost_cases beh mb ms, rfl⟩

/-- C5 (counterexample): research records a delta of $0.05 and then fails;
the run ends at once and the final state's `total_cost` is 0, not the sum
of the recorded deltas. -/
theorem research_cost_lost_when_run_ends_early :
    (runSteps researchFailBeh (2 : ℚ) 1 (initialMachine "Test Co" none)).node
        = Node.done ∧
    (runSteps researchFailBeh (2 : ℚ) 1
        (initialMachine "Test Co" none)).tracker.total_cost = 1/20 ∧
    ((researchFailBeh.research (initialState "Test Co" none)).usages.map
        (fun u => calculate_cost u.model u.input_tokens u.output_tokens)).sum
        = 1/20 ∧
    (runSteps researchFailBeh (2 : ℚ) 1
        (initialMachine "Test Co" none)).state.total_cost = 0 ∧
    (0 : ℚ) ≠ 1/20 := by
  have h1 : runSteps researchFailBeh (2 : ℚ) 1 (initialMachine "Test Co" none)
      = ⟨stateAfterResearchFail, budgetTracker1, Node.done⟩ := by
    simp only [runSteps]
    exact fail_step1
  rw [h1]
  refine ⟨rfl, by norm_num [budgetTracker1], ?_, rfl, by norm_num⟩
  norm_num [researchFailBeh, calculate_cost, getPricing_gpt5mini, gpt5miniPricing]

/-- C4: the ANALYSIS node is dispatched only on states with non-empty
research output and no recorded errors, and a research step that ends with
an error entry or empty research output routes directly to `END`. -/
theorem analysis_never_sees_empty_research (beh : Behaviors) (mb : ℚ)
    (c : String) (ind : Option String) (n : Nat)
    (s : IntelligenceState) (t : CostTracker) :
    ((runSteps beh mb n (initialMachine c ind)).node = Node.analysis →
      (runSteps beh mb n (initialMachine c ind)).state.research_data ≠ [] ∧
      (runSteps beh mb n (initialMachine c ind)).state.errors = []) ∧
    (((step beh mb ⟨s, t, Node.research⟩).state.errors ≠ [] ∨
      (step beh mb ⟨s, t, Node.research⟩).state.research_data = []) →
      (step beh mb ⟨s, t, Node.research⟩).node = Node.done) := by
  constructor
  · intro h
    cases n with
    | zero =>
        simp only [runSteps, initialMachine] at h
        exact Node.noConfusion h
    | succ k =>
        rw [runSteps_succ_last] at h ⊢
        exact step_node_analysis_guard beh mb _ h
  · exact step_research_error_done beh mb s t

/-- Witness for C4: a run whose second configuration is at ANALYSIS indeed
has non-empty research data, and a failing research step routes to END. -/
theorem analysis_never_sees_empty_research_witness :
    (runSteps successBeh (2 : ℚ) 1
        (initialMachine "Test Co" none)).state.research_data ≠ [] ∧
    (step researchFailBeh (2 : ℚ)
        ⟨initialState "Test Co" none, CostTracker.init, Node.research⟩).node
      = Node.done :=
  ⟨((analysis_never_sees_empty_research successBeh 2 "Test Co" none 1
      (initialState "Test Co" none) CostTracker.init).1 (by decide)).1,
   (analysis_never_sees_empty_research researchFailBeh 2 "Test Co" none 1
      (initialState "Test Co" none) CostTracker.init).2 (Or.inl (by decide))⟩

/-- C2 (counterexample): in the spec's scenario (budget $0.001, research
records $0.05 and succeeds), the analysis budget check fails and records
the error, but the run does not stop there: WRITING and REVIEW still
execute and the final state is auto-approved (`approved = true`,
`current_agent = "human_review"`, report fields written). -/
theorem budget_scenario_still_approves :
    (runSteps budgetScenarioBeh (0.001 : ℚ) 4
        (initialMachine "Test Co" none)).node = Node.done ∧
    (runSteps budgetScenarioBeh (0.001 : ℚ) 4
        (initialMachine "Test Co" none)).state.errors
      = ["Budget exceeded: Cost exceeds budget"] ∧
    (runSteps budgetScenarioBeh (0.001 : ℚ) 4
        (initialMachine "Test Co" none)).state.approved = true ∧
    (runSteps budgetScenarioBeh (0.001 : ℚ) 4
        (initialMachine "Test Co" none)).state.current_agent = "human_review" ∧
    (runSteps budgetScenarioBeh (0.001 : ℚ) 4
        (initialMachine "Test Co" none)).state.executive_summary
      = "Test summary" := by
  rw [budget_run4]
  exact ⟨rfl, rfl, rfl, rfl, rfl⟩

/-- C2 (amended): when the budget check at the start of ANALYSIS fails,
the node records a `Budget exceeded:` error (leaving the tracker
untouched and skipping the analysis agent), and the orchestrator then
follows the unconditional `analysis → writing` edge, so the run continues
through WRITING and REVIEW instead of stopping. -/
theorem budget_failure_routes_to_writing (beh : Behaviors) (mb : ℚ)
    (s : IntelligenceState) (t : CostTracker) (hb : mb < t.total_cost) :
    (step beh mb ⟨s, t, Node.analysis⟩).node = Node.writing ∧
    (step beh mb ⟨s, t, Node.analysis⟩).state.errors
      = s.errors ++ ["Budget exceeded: Cost exceeds budget"] ∧
    (step beh mb ⟨s, t, Node.analysis⟩).state.current_agent = "analysis" ∧
    (step beh mb ⟨s, t, Node.analysis⟩).tracker = t := by
  have hcb : (check_budget t mb).fst = Except.error "Cost exceeds budget" := by
    simp only [check_budget]
    split_ifs with hx
    · rfl
    · exact absurd hb hx
  have happ : ("Budget exceeded: " ++ "Cost exceeds budget" : String)
      = "Budget exceeded: Cost exceeds budget" := by decide
  refine ⟨?_, ?_, ?_, ?_⟩ <;> simp only [step, analysis_node, hcb, happ]

/-- Witness for C2's amended statement, at the scenario's post-research
configuration. -/
theorem budget_failure_routes_to_writing_witness :
    (step budgetScenarioBeh (0.001 : ℚ)
        ⟨stateAfterResearch, budgetTracker1, Node.analysis⟩).node
      = Node.writing :=
  (budget_failure_routes_to_writing budgetScenarioBeh 0.001 stateAfterResearch
    budgetTracker1 (by norm_num [budgetTracker1])).1

/-- C3: no transition of the workflow ever changes `revision_count` — in
particular, when the review stage requests a revision (feedback present,
not approved) the `revise` edge back to RESEARCH is taken with
`revision_count` still 0, not incremented: the increment the state schema
and the cap check in `_check_approval` presuppose does not exist. -/
theorem revision_count_never_incremented (beh : Behaviors) (mb : ℚ)
    (ms : MachineState) :
    (step beh mb ms).state.revision_count = ms.state.revision_count ∧
    (runSteps revisingReviewBeh (2 : ℚ) 4
        (initialMachine "Test Co" none)).node = Node.research ∧
    (runSteps revisingReviewBeh (2 : ℚ) 4
        (initialMachine "Test Co" none)).state.revision_count = 0 ∧
    (runSteps revisingReviewBeh (2 : ℚ) 4
        (initialMachine "Test Co" none)).state.human_feedback
      = some "Please add more details" := by
  constructor
  · exact step_revision_count beh mb ms
  · rw [revise_run4]
    exact ⟨rfl, rfl, rfl⟩

/-- C8 (counterexample): the budget-scenario run is terminal, is stored
with status `"failed"` and last agent `"human_review"`, and `get_status`
then reports progress 0.9, not 1.0. -/
theorem failed_terminal_run_reports_partial_progress :
    (runSteps budgetScenarioBeh (0.001 : ℚ) 4
        (initialMachine "Test Co" none)).node = Node.done ∧
    run_final_status (runSteps budgetScenarioBeh (0.001 : ℚ) 4
        (initialMachine "Test Co" none)).state.errors = "failed" ∧
    get_status_progress
        (run_final_status (runSteps budgetScenarioBeh (0.001 : ℚ) 4
          (initialMachine "Test Co" none)).state.errors)
        (some (runSteps budgetScenarioBeh (0.001 : ℚ) 4
          (initialMachine "Test Co" none)).state.current_agent)
      = (0.9 : ℚ) ∧
    (0.9 : ℚ) ≠ 1 := by
  rw [budget_run4]
  refine ⟨rfl, rfl, rfl, by norm_num⟩

/-- C8 (amended): `get_status` maps the stored last agent through the
fixed table (research 0.2, analysis 0.5, writing 0.8, human_review 0.9,
0.0 when none), forcing progress 1.0 exactly when the stored status is
`"completed"`; the table values are monotone along the stage order. -/
theorem progress_mapping (st : String) (ag : Option String)
    (h : st ≠ "completed") :
    get_status_progress "completed" ag = 1 ∧
    get_status_progress st (some "research") = (0.2 : ℚ) ∧
    get_status_progress st (some "analysis") = (0.5 : ℚ) ∧
    get_status_progress st (some "writing") = (0.8 : ℚ) ∧
    get_status_progress st (some "human_review") = (0.9 : ℚ) ∧
    get_status_progress st none = 0 ∧
    ((0.2 : ℚ) ≤ 0.5 ∧ (0.5 : ℚ) ≤ 0.8 ∧ (0.8 : ℚ) ≤ 0.9 ∧ (0.9 : ℚ) ≤ 1) := by
  refine ⟨?_, ?_, ?_, ?_, ?_, ?_, by norm_num⟩ <;>
    simp [get_status_progress, h, lookupProgress_research, lookupProgress_analysis,
      lookupProgress_writing, lookupProgress_review]

/-- Witness for C8's amended statement at a stored failed run. -/
theorem progress_mapping_witness :
    get_status_progress "failed" (some "research") = (0.2 : ℚ) :=
  (progress_mapping "failed" none (by decide)).2.1

/-- C7: `get_summary` aggregates the recorded usage history: the call
count is the history length, total input and output tokens are the
history sums, total tokens is the sum of input plus output tokens over
the history, the reported total cost is the running total (rounded to
four decimal places), and the per-model breakdown holds exactly the
models occurring in the history with their summed input tokens, output
tokens and per-call costs. -/
theorem get_summary_aggregates (t : CostTracker) (model : String) :
    (get_summary t).fst.calls = t.usage_history.length ∧
    (get_summary t).fst.total_input_tokens
      = (t.usage_history.map TokenUsage.input_tokens).sum ∧
    (get_summary t).fst.total_output_tokens
      = (t.usage_history.map TokenUsage.output_tokens).sum ∧
    (get_summary t).fst.total_tokens
      = (t.usage_history.map TokenUsage.total_tokens).sum ∧
    (get_summary t).fst.total_cost = round4 t.total_cost ∧
    lookupModel (get_summary t).fst.by_model model
      = spec_model_breakdown model t.usage_history := by
  refine ⟨rfl, rfl, rfl, (sum_total_tokens t.usage_history).symm, rfl, ?_⟩
  show lookupModel (List.foldl addUsage [] t.usage_history) model = _
  rw [lookupModel_foldl]
  unfold spec_model_breakdown
  by_cases hre : modelRecords model t.usage_history = []
  · rw [if_pos hre, if_pos hre]
    rfl
  · rw [if_neg hre, if_neg hre]
    simp [lookupModel]

/-- C1: for every ledger state and limit, `check_budget` raises
`BudgetExceededError` exactly when the running total strictly exceeds the
limit; it returns normally at equality or below. -/
theorem check_budget_exceeds_iff (t : CostTracker) (lim : ℚ) :
    ((check_budget t lim).fst = Except.ok () ↔ t.total_cost ≤ lim) ∧
    ((check_budget t lim).fst = Except.error "Cost exceeds budget" ↔
      lim < t.total_cost) := by
  unfold check_budget
  rcases le_or_lt t.total_cost lim with h | h
  · rw [if_neg (not_lt.mpr h)]
    constructor
    · simp [h]
    · simp [not_lt.mpr h]
  · rw [if_pos h]
    constructor
    · simp [not_le.mpr h]
    · simp [h]

/-- C10: `check_budget` (raising or not) and `get_summary` leave the ledger
state unchanged: their embeddings return the input tracker as post-state,
because the source methods only read `self`. -/
theorem budget_and_summary_preserve_ledger (t : CostTracker) (lim : ℚ) :
    (check_budget t lim).snd = t ∧ (get_summary t).snd = t :=
  ⟨rfl, rfl⟩

/-- C6: `track_usage` prices input and output tokens independently from the
per-model table (falling back to the `openai/gpt-5-mini` entry for an
unknown model rather than failing), appends exactly one usage record,
increases the running total by exactly the returned delta, and returns that
delta. -/
theorem track_usage_contract (t : CostTracker) (model : String)
    (input_tokens output_tokens : Nat) :
    (track_usage t model input_tokens output_tokens).fst
        = (input_tokens : ℚ) * (getPricing model).fst
          + (output_tokens : ℚ) * (getPricing model).snd ∧
    (track_usage t model input_tokens output_tokens).snd.usage_history
        = t.usage_history ++ [⟨input_tokens, output_tokens, model⟩] ∧
    (track_usage t model input_tokens output_tokens).snd.total_cost
        = t.total_cost + (track_usage t model input_tokens output_tokens).fst ∧
    (PRICING.find? (fun p => p.fst == model) = none →
      getPricing model = gpt5miniPricing) := by
  refine ⟨rfl, rfl, rfl, ?_⟩
  intro h
  unfold getPricing dictGet
  rw [h]

/-- Witness for C6 at a concrete unknown model: the price table has no
entry for it and the lookup falls back to the `openai/gpt-5-mini` entry. -/
theorem track_usage_contract_witness :
    getPricing "unknown/model" = gpt5miniPricing :=
  (track_usage_contract CostTracker.init "unknown/model" 3 5).2.2.2 rfl

end MarketIntel
